/-
Verification of the PHI-Redaction de-identification pipeline.

Shallow embedding of the core pipeline of the PHI-Redaction repository:
  * `LLMDetector._parse_response` / `_detect_page` / `detect` / `detect_async`
    (src/redaction/detectors/llm_detector.py)
  * `PDFRedactor.apply_redactions` (src/redaction/redactors/pdf_redactor.py)
  * `RedactionPipeline.process`, `_apply_confidence_filter`, `_apply_mode`
    (src/redaction/pipeline.py)
  * `SyntheticDataGenerator.generate` / `reset` (src/redaction/synthesizer.py)
  * benchmark matching and metrics (evaluation/run_benchmark.py)
  * the data model (src/redaction/models/entities.py)

Python floats are modelled as rationals (ℚ); machine randomness is modelled
as an arbitrary stream of draws; the external LLM call is modelled as an
arbitrary per-page outcome function.  Fallible Python code is modelled with
`Except`, an uncaught Python exception being an `Except.error`.
-/
import Mathlib

namespace PHIRedaction

/-! ## Data model (src/redaction/models/entities.py) -/

/-- `BoundingBox`: bounding box coordinates for a text region. -/
structure BoundingBox where
  x0 : ℚ
  y0 : ℚ
  x1 : ℚ
  y1 : ℚ
  deriving Repr, DecidableEq

/-- `PageContent`: content extracted from a single document page. -/
structure PageContent where
  page_number : Nat
  text : String
  width : ℚ := 0
  height : ℚ := 0
  is_ocr : Bool := false
  deriving Repr, DecidableEq

/-- `SensitiveFinding`: a detected piece of Protected Health Information.
`finding_id` is a uuid in the source; it plays no role in any claim and is
kept as an opaque string. -/
structure SensitiveFinding where
  text : String
  category : String
  subcategory : String
  page_number : Nat
  confidence : ℚ
  rationale : String
  replacement : String := ""
  finding_id : String := ""
  bounding_boxes : List BoundingBox := []
  is_multiline : Bool := false
  deriving Repr, DecidableEq

/-! ## Python string helpers

`needle in hay` (substring test), `str.split()` (split on whitespace runs,
dropping empties) and `" ".join(...)` are used by the detector, the redactor
and the benchmark scorer. -/

/-- Python `needle in hay` on character lists: `needle` occurs contiguously. -/
def charsContain (hay needle : List Char) : Bool :=
  needle.isPrefixOf hay ||
    match hay with
    | [] => false
    | _ :: t => charsContain t needle

/-- Python `needle in hay` for strings (substring containment). -/
def strContains (hay needle : String) : Bool :=
  charsContain hay.data needle.data

/-- Python `s.split()` over a character list: the maximal non-whitespace
runs, in order (`acc` carries the current run, reversed). -/
def splitWsAux : List Char → List Char → List (List Char)
  | [], acc => if acc.isEmpty then [] else [acc.reverse]
  | c :: rest, acc =>
      if c.isWhitespace then
        if acc.isEmpty then splitWsAux rest []
        else acc.reverse :: splitWsAux rest []
      else splitWsAux rest (c :: acc)

/-- Python `s.split()`: split on runs of whitespace, dropping empty chunks. -/
def pySplitWs (s : String) : List String :=
  (splitWsAux s.data []).map String.mk

/-- Python `" ".join(parts)`. -/
def joinSpaces : List String → String
  | [] => ""
  | [s] => s
  | s :: rest => s ++ " " ++ joinSpaces rest

/-- Python `" ".join(s.split())`: collapse whitespace runs to single spaces
and trim (used in `PDFRedactor.apply_redactions` and `_normalize`). -/
def wsNormalize (s : String) : String :=
  joinSpaces (pySplitWs s)

/-- Python `s.lower()` (per-character case folding). -/
def pyLower (s : String) : String :=
  String.mk (s.data.map Char.toLower)

/-- Python `bool(s.strip())` is false iff the page text is whitespace-only
(`LLMDetector.detect` skips such pages). -/
def isBlank (s : String) : Bool :=
  s.data.all Char.isWhitespace

/-! ## LLM response model (src/redaction/detectors/llm_detector.py)

`_parse_response` reads `response.choices[0].message.content`, JSON-decodes
it, and iterates over `data.get("findings", [])`.  A finding item is a JSON
object whose fields may be absent; its `confidence` value may fail Python's
`float(...)` conversion. -/

/-- A `confidence` value as seen by `float(item.get("confidence", 0.8))`:
either a value `float` accepts (modelled by its rational value) or one that
makes `float` raise (e.g. the string `"high"`). -/
inductive ConfVal where
  | num (q : ℚ)
  | notANumber (s : String)
  deriving Repr, DecidableEq

/-- One item of the `findings` array of the LLM JSON payload.  `none` models
an absent key. -/
structure LLMItem where
  text : Option String := none
  category : Option String := none
  subcategory : Option String := none
  confidence : Option ConfVal := none
  rationale : Option String := none
  replacement : Option String := none
  deriving Repr, DecidableEq

/-- The response object handed to `_parse_response`, abstracted to the cases
the parse step distinguishes:
  * `emptyChoices` — `response.choices` is empty, so `choices[0]` raises;
  * `malformedJson` — `json.loads(content)` raises;
  * `json fs` — a decoded JSON object; `fs = none` models a payload without
    a top-level `"findings"` key (`data.get("findings", [])` then yields the
    empty list). -/
inductive LLMResponse where
  | emptyChoices
  | malformedJson
  | json (findingsField : Option (List LLMItem))
  deriving Repr, DecidableEq

/-- Python exceptions `_parse_response` can raise. -/
inductive ParseError where
  | indexError      -- `response.choices[0]` on empty choices
  | jsonDecodeError -- `json.loads` on malformed content
  | keyError        -- `item["text"]` when the item has no `"text"` key
  | valueError      -- `float(...)` on a non-numeric confidence
  deriving Repr, DecidableEq

/-- `LLMDetector._default_placeholder`: default placeholder tag per category. -/
def default_placeholder (category : String) : String :=
  if category = "patient_name" then "[PATIENT_NAME]"
  else if category = "date" then "[DATE]"
  else if category = "phone_number" then "[PHONE_NUMBER]"
  else if category = "fax_number" then "[FAX_NUMBER]"
  else if category = "email_address" then "[EMAIL_ADDRESS]"
  else if category = "ssn" then "[SSN]"
  else if category = "medical_record_number" then "[MEDICAL_RECORD_NUMBER]"
  else if category = "health_plan_number" then "[HEALTH_PLAN_NUMBER]"
  else if category = "account_number" then "[ACCOUNT_NUMBER]"
  else if category = "license_number" then "[LICENSE_NUMBER]"
  else if category = "geographic_data" then "[ADDRESS]"
  else if category = "age_over_89" then "[AGE_OVER_89]"
  else if category = "device_id" then "[DEVICE_ID]"
  else if category = "web_url" then "[URL]"
  else if category = "ip_address" then "[IP_ADDRESS]"
  else "[REDACTED]"

/-- The tail of `_parse_response`'s loop body once both validation checks
have passed: clamp the confidence into [0,1], fill a missing replacement
with the category's placeholder tag, and construct the `SensitiveFinding`
from `item["text"]` (a raising access when the key is absent). -/
def buildFinding (page : PageContent) (item : LLMItem)
    (item_category : String) (raw_confidence : ℚ) :
    Except ParseError (Option SensitiveFinding) :=
  match item.text with
  | none => .error .keyError
  | some t =>
      .ok (some
        { text := t
          category := item_category
          subcategory := item.subcategory.getD "unknown"
          page_number := page.page_number
          confidence := max 0 (min 1 raw_confidence)
          rationale := item.rationale.getD ""
          replacement :=
            if item.replacement.getD "" = "" then
              default_placeholder item_category
            else item.replacement.getD "" })

/-- The body of `_parse_response`'s loop for one item: skip the item
(`Except.ok none`) when its category is not valid or its text is not a
verbatim substring of the page text; otherwise convert the confidence
(`float` raising on a non-numeric value, missing confidence defaulting to
0.8) and build the finding.  The error order follows the source: `float`
is evaluated before `item["text"]`. -/
def parseItem (page : PageContent) (valid_categories : List String)
    (item : LLMItem) : Except ParseError (Option SensitiveFinding) :=
  let item_category := item.category.getD ""
  if item_category ∉ valid_categories then .ok none
  else if !strContains page.text (item.text.getD "") then .ok none
  else
    match item.confidence with
    | none => buildFinding page item item_category (mkRat 8 10)
    | some (.num q) => buildFinding page item item_category q
    | some (.notANumber _) => .error .valueError

/-- The loop of `_parse_response` over the `findings` array: the first
raising item aborts the whole parse (the findings accumulated so far are
discarded by the propagating exception). -/
def parseItems (page : PageContent) (valid_categories : List String) :
    List LLMItem → Except ParseError (List SensitiveFinding)
  | [] => .ok []
  | item :: rest =>
      match parseItem page valid_categories item with
      | .error e => .error e
      | .ok f? =>
          match parseItems page valid_categories rest with
          | .error e => .error e
          | .ok fs =>
              .ok (match f? with
                   | none => fs
                   | some f => f :: fs)

/-- `LLMDetector._parse_response`: fails on empty `choices` or malformed
JSON; a decoded payload without a `"findings"` key parses as the empty
list via `data.get("findings", [])`. -/
def parse_response (response : LLMResponse) (page : PageContent)
    (valid_categories : List String) :
    Except ParseError (List SensitiveFinding) :=
  match response with
  | .emptyChoices => .error .indexError
  | .malformedJson => .error .jsonDecodeError
  | .json fs => parseItems page valid_categories (fs.getD [])

/-- Outcome of `_call_api` for one page: either the response object, or an
exception (transport error, retries exhausted, ...). -/
inductive CallOutcome where
  | failure
  | response (r : LLMResponse)
  deriving Repr, DecidableEq

/-- `LLMDetector._detect_page`: any exception from the call or the parse is
caught and turned into zero findings for that page. -/
def detect_page (call : CallOutcome) (page : PageContent)
    (valid_categories : List String) : List SensitiveFinding :=
  match call with
  | .failure => []
  | .response r =>
      match parse_response r page valid_categories with
      | .error _ => []
      | .ok fs => fs

/-- `LLMDetector.detect` (sequential): skip blank pages, concatenate the
per-page findings.  The external call is modelled by the per-page outcome
function `call`. -/
def detect (pages : List PageContent) (call : PageContent → CallOutcome)
    (valid_categories : List String) : List SensitiveFinding :=
  match pages with
  | [] => []
  | page :: rest =>
      (if isBlank page.text then []
       else detect_page (call page) page valid_categories) ++
        detect rest call valid_categories

/-- `LLMDetector.detect_async`: filter out blank pages, run every page
(failures becoming values via `return_exceptions=True`), and concatenate the
successful pages' findings in page order. -/
def detect_async (pages : List PageContent) (call : PageContent → CallOutcome)
    (valid_categories : List String) : List SensitiveFinding :=
  ((pages.filter (fun p => !isBlank p.text)).map
      (fun p => detect_page (call p) p valid_categories)).flatten

/-! ## PDF redactor (src/redaction/redactors/pdf_redactor.py)

`fitz` (PyMuPDF) is external: a document is modelled by its page count and
its `page.search_for` behaviour, an arbitrary function from page number and
search text to the list of matched rectangles. -/

/-- A PyMuPDF `Rect` as returned by `page.search_for`. -/
structure Rect where
  x0 : ℚ
  y0 : ℚ
  x1 : ℚ
  y1 : ℚ
  deriving Repr, DecidableEq

/-- `BoundingBox.from_rect`. -/
def BoundingBox.from_rect (r : Rect) : BoundingBox :=
  { x0 := r.x0, y0 := r.y0, x1 := r.x1, y1 := r.y1 }

/-- The document as the redactor observes it: `len(doc)` and
`doc[page].search_for(text)`. -/
structure PDFDoc where
  numPages : Nat
  search : Nat → String → List Rect

/-- The matched rectangles for one search text on one page: the exact text
first, and on no hits the whitespace-normalized text
(`" ".join(finding.text.split())`). -/
def searchInstances (doc : PDFDoc) (page_number : Nat) (text : String) :
    List Rect :=
  let text_instances := doc.search page_number text
  if text_instances.isEmpty then doc.search page_number (wsNormalize text)
  else text_instances

/-- Python `round(q, 0)` / `round(q, 2)` are float roundings; over ℚ we use
nearest-integer rounding (Mathlib `round`), which agrees except on exact
halfway ties (Python rounds those half-to-even). -/
def round2 (q : ℚ) : ℚ :=
  ((round (100 * q) : ℤ) : ℚ) / 100

/-- `findings_by_page`: Python's `dict.setdefault(...).append(...)`
grouping — groups appear in first-occurrence order, members in list order. -/
def insertGroup (gs : List (Nat × List SensitiveFinding))
    (f : SensitiveFinding) : List (Nat × List SensitiveFinding) :=
  match gs with
  | [] => [(f.page_number, [f])]
  | (k, fs) :: rest =>
      if k = f.page_number then (k, fs ++ [f]) :: rest
      else (k, fs) :: insertGroup rest f

/-- Grouping of findings by `page_number` (insertion-ordered dict). -/
def findings_by_page (findings : List SensitiveFinding) :
    List (Nat × List SensitiveFinding) :=
  findings.foldl insertGroup []

/-- The in-place mutation `PDFRedactor.apply_redactions` performs on one
finding object: `finding.bounding_boxes` is set to the matched boxes and
`finding.is_multiline` is reclassified (distinct rounded `y0` positions for
several boxes, height `> 20` for a single box).  A finding on a page with
`page_num >= len(doc)` is never visited, hence unchanged. -/
def updateFinding (doc : PDFDoc) (f : SensitiveFinding) : SensitiveFinding :=
  if doc.numPages ≤ f.page_number then f
  else
    let bboxes := (searchInstances doc f.page_number f.text).map
      BoundingBox.from_rect
    let is_multiline :=
      if 1 < bboxes.length then
        decide (1 < ((bboxes.map (fun bb => round bb.y0)).dedup).length)
      else if bboxes.length = 1 then
        decide ((20 : ℚ) < ((bboxes.getD 0 ⟨0, 0, 0, 0⟩).y1 -
          (bboxes.getD 0 ⟨0, 0, 0, 0⟩).y0))
      else f.is_multiline
    { f with bounding_boxes := bboxes, is_multiline := is_multiline }

/-- `PDFRedactor.apply_redactions`, returning `redaction_count`: one
annotation (`_add_annot` + `redaction_count += 1`) per matched rectangle,
iterating the page groups and skipping groups beyond the document. -/
def apply_redactions (doc : PDFDoc) (findings : List SensitiveFinding) : Nat :=
  (findings_by_page findings).foldl
    (fun cnt pg =>
      if doc.numPages ≤ pg.1 then cnt
      else pg.2.foldl
        (fun c f => c + (searchInstances doc pg.1 f.text).length) cnt)
    0

/-! ## Synthetic data generator (src/redaction/synthesizer.py)

`random.Random` is external; it is modelled as a stream of draws consumed
one per primitive call (`choice`, `randint`, one per generated character for
`choices(k=...)`).  `datetime.now()` and `strftime("%m/%d/%Y")` are external
too: dates are day counts and the formatter is an arbitrary function. -/

/-- The pseudo-random generator state: a stream of draws plus a cursor. -/
structure RngState where
  draws : Nat → Nat
  idx : Nat

/-- Consume one draw. -/
def RngState.next (s : RngState) : Nat × RngState :=
  (s.draws s.idx, { s with idx := s.idx + 1 })

/-- `self._rng.randint(lo, hi)` (inclusive bounds). -/
def randint (lo hi : Nat) (rng : RngState) : Nat × RngState :=
  let (d, rng') := rng.next
  (lo + d % (hi - lo + 1), rng')

/-- `self._rng.choice(pool)`. -/
def choice (pool : List String) (rng : RngState) : String × RngState :=
  let (d, rng') := rng.next
  (pool.getD (d % pool.length) "", rng')

/-- One draw from `string.ascii_uppercase`. -/
def upperChoice (rng : RngState) : String × RngState :=
  let (d, rng') := rng.next
  (String.singleton (Char.ofNat (65 + d % 26)), rng')

def FIRST_NAMES : List String :=
  ["Alex", "Jordan", "Taylor", "Morgan", "Casey", "Riley", "Quinn",
   "Avery", "Parker", "Drew", "Jamie", "Sam", "Chris", "Pat", "Robin",
   "Blake", "Sage", "Reese", "Finley", "Hayden", "Dakota", "Emery"]

def LAST_NAMES : List String :=
  ["Anderson", "Baker", "Clark", "Davis", "Edwards", "Foster", "Green",
   "Harris", "Irving", "Jenkins", "Klein", "Lewis", "Mitchell", "Nelson",
   "O'Connor", "Patterson", "Quinn", "Roberts", "Stevens", "Turner"]

def STREET_NAMES : List String :=
  ["Oak Lane", "Maple Drive", "Cedar Avenue", "Pine Street",
   "Elm Road", "Birch Way", "Willow Court", "Spruce Boulevard"]

def CITIES : List String :=
  ["Anytown", "Springfield", "Riverside", "Fairview", "Lakewood",
   "Greenville", "Centerville", "Hillcrest", "Pleasanton", "Meadowbrook"]

def PROVIDERS : List String :=
  ["Dr. A. Smith", "Dr. B. Johnson", "Dr. C. Williams", "Dr. D. Brown",
   "Dr. E. Jones", "Dr. F. Garcia", "Dr. G. Miller", "Dr. H. Davis"]

/-- External date facilities: `datetime.now()` as a day count and
`strftime("%m/%d/%Y")` as a formatter over day counts. -/
structure SynthEnv where
  today : Int
  fmtDate : Int → String

/-- `_generate_name`: both names are drawn before the subcategory branch. -/
def generate_name (subcategory : String) (rng : RngState) :
    String × RngState :=
  let (first, rng1) := choice FIRST_NAMES rng
  let (last, rng2) := choice LAST_NAMES rng1
  if subcategory = "first_name" then (first, rng2)
  else if subcategory = "last_name" then (last, rng2)
  else if subcategory = "provider_name" then choice PROVIDERS rng2
  else (first ++ " " ++ last, rng2)

/-- `_generate_date`: shift from today by 30–365 days, or for a date of
birth by 20–80 · 365 days (the first draw still happens first). -/
def generate_date (env : SynthEnv) (subcategory : String) (rng : RngState) :
    String × RngState :=
  let (shift_days, rng1) := randint 30 365 rng
  if subcategory = "date_of_birth" then
    let (years_ago, rng2) := randint 20 80 rng1
    (env.fmtDate (env.today - years_ago * 365), rng2)
  else
    (env.fmtDate (env.today - shift_days), rng1)

/-- `_generate_phone`. -/
def generate_phone (rng : RngState) : String × RngState :=
  let (area, rng1) := randint 200 999 rng
  let (pfx, rng2) := randint 200 999 rng1
  let (line, rng3) := randint 1000 9999 rng2
  (s!"({area}) {pfx}-{line}", rng3)

/-- `_generate_fax`. -/
def generate_fax (rng : RngState) : String × RngState :=
  let (ph, rng') := generate_phone rng
  ("Fax: " ++ ph, rng')

/-- `_generate_email`. -/
def generate_email (rng : RngState) : String × RngState :=
  let (first, rng1) := choice FIRST_NAMES rng
  let (last, rng2) := choice LAST_NAMES rng1
  let (domain, rng3) := choice ["email.com", "mail.org", "example.com"] rng2
  (first.toLower ++ "." ++ last.toLower ++ "@" ++ domain, rng3)

/-- `_generate_ssn`. -/
def generate_ssn (rng : RngState) : String × RngState :=
  let (area, rng1) := randint 100 999 rng
  let (grp, rng2) := randint 10 99 rng1
  let (serial, rng3) := randint 1000 9999 rng2
  (s!"{area}-{grp}-{serial}", rng3)

/-- `_generate_mrn`. -/
def generate_mrn (rng : RngState) : String × RngState :=
  let (num, rng1) := randint 10000000 99999999 rng
  (s!"MRN-{num}", rng1)

/-- `_generate_health_plan`. -/
def generate_health_plan (rng : RngState) : String × RngState :=
  let (a, rng1) := upperChoice rng
  let (b, rng2) := upperChoice rng1
  let (c, rng3) := upperChoice rng2
  let (num, rng4) := randint 100000000 999999999 rng3
  (a ++ b ++ c ++ toString num, rng4)

/-- `_generate_account`. -/
def generate_account (rng : RngState) : String × RngState :=
  let (num, rng1) := randint 100000000 999999999 rng
  (s!"ACCT-{num}", rng1)

/-- `_generate_license`. -/
def generate_license (rng : RngState) : String × RngState :=
  let (letter, rng1) := upperChoice rng
  let (num, rng2) := randint 10000000 99999999 rng1
  (letter ++ toString num, rng2)

/-- `_generate_address`. -/
def generate_address (subcategory : String) (rng : RngState) :
    String × RngState :=
  if subcategory = "zip_code" then
    let (z, rng1) := randint 10000 99999 rng
    (toString z, rng1)
  else if subcategory = "city" then choice CITIES rng
  else if subcategory = "county" then
    let (c, rng1) := choice CITIES rng
    (c ++ " County", rng1)
  else
    let (num, rng1) := randint 100 9999 rng
    let (street, rng2) := choice STREET_NAMES rng1
    (s!"{num} {street}", rng2)

/-- `_generate_device_id`. -/
def generate_device_id (rng : RngState) : String × RngState :=
  let (a, rng1) := upperChoice rng
  let (b, rng2) := upperChoice rng1
  let (num, rng3) := randint 100000 999999 rng2
  ("DEV-" ++ a ++ b ++ toString num, rng3)

/-- `_generate_ip`. -/
def generate_ip (rng : RngState) : String × RngState :=
  let (a, rng1) := randint 0 255 rng
  let (b, rng2) := randint 0 255 rng1
  let (c, rng3) := randint 0 255 rng2
  (s!"10.{a}.{b}.{c}", rng3)

/-- The `generator_map` dispatch of `SyntheticDataGenerator.generate`,
with `_generate_placeholder` as the fallback for unmatched categories. -/
def dispatchGenerator (env : SynthEnv) (category subcategory : String)
    (rng : RngState) : String × RngState :=
  if category = "patient_name" then generate_name subcategory rng
  else if category = "date" then generate_date env subcategory rng
  else if category = "phone_number" then generate_phone rng
  else if category = "fax_number" then generate_fax rng
  else if category = "email_address" then generate_email rng
  else if category = "ssn" then generate_ssn rng
  else if category = "medical_record_number" then generate_mrn rng
  else if category = "health_plan_number" then generate_health_plan rng
  else if category = "account_number" then generate_account rng
  else if category = "license_number" then generate_license rng
  else if category = "geographic_data" then generate_address subcategory rng
  else if category = "age_over_89" then ("90+", rng)
  else if category = "device_id" then generate_device_id rng
  else if category = "web_url" then ("http://example.com/redacted", rng)
  else if category = "ip_address" then generate_ip rng
  else ("[REDACTED]", rng)

/-- `SyntheticDataGenerator` state: the rng and the per-document cache
(`self._cache`, a dict; modelled as an association list — `generate` only
ever inserts keys that are absent, so lookup agrees with dict lookup). -/
structure SynthState where
  rng : RngState
  cache : List (String × String)

/-- `SyntheticDataGenerator.generate`: return the cached replacement for
`f"{category}:{original_text}"` if present, else generate one via the
category's generator and cache it. -/
def generate (env : SynthEnv) (st : SynthState)
    (category subcategory original_text : String) : String × SynthState :=
  let cache_key := category ++ ":" ++ original_text
  match st.cache.lookup cache_key with
  | some v => (v, st)
  | none =>
      let (result, rng') := dispatchGenerator env category subcategory st.rng
      (result, { rng := rng', cache := (cache_key, result) :: st.cache })

/-- `SyntheticDataGenerator.reset`: clear the cache for a new document. -/
def reset (st : SynthState) : SynthState :=
  { st with cache := [] }

/-! ## Pipeline orchestrator (src/redaction/pipeline.py) -/

def VALID_MODES : List String := ["mask", "placeholder", "synthetic"]

/-- `RedactionPipeline.__init__`: an unrecognized mode value is replaced by
`"placeholder"` before any processing. -/
def init_mode (mode : String) : String :=
  if mode ∈ VALID_MODES then mode else "placeholder"

/-- `RedactionPipeline._apply_confidence_filter`: no threshold keeps all
findings; a threshold `> 1` is divided by 100; findings with
`confidence >= t` are kept. -/
def apply_confidence_filter (findings : List SensitiveFinding)
    (confidence_threshold : Option ℚ) : List SensitiveFinding :=
  match confidence_threshold with
  | none => findings
  | some threshold =>
      let t := if 1 < threshold then threshold / 100 else threshold
      findings.filter (fun f => decide (t ≤ f.confidence))

/-- One iteration of `_apply_mode`'s synthetic loop: overwrite the
finding's replacement with a freshly generated value, threading the
synthesizer state. -/
def synthStep (env : SynthEnv) (acc : List SensitiveFinding × SynthState)
    (f : SensitiveFinding) : List SensitiveFinding × SynthState :=
  let (r, st') := generate env acc.2 f.category f.subcategory f.text
  (acc.1 ++ [{ f with replacement := r }], st')

/-- `RedactionPipeline._apply_mode`: `mask` clears every replacement;
`synthetic` (with a synthesizer present) resets the cache then regenerates
every replacement in list order; anything else leaves findings untouched. -/
def apply_mode (env : SynthEnv) (mode : String) (synth : Option SynthState)
    (findings : List SensitiveFinding) :
    List SensitiveFinding × Option SynthState :=
  if mode = "mask" then
    (findings.map (fun f => { f with replacement := "" }), synth)
  else if mode = "synthetic" then
    match synth with
    | none => (findings, none)
    | some st =>
        let out := findings.foldl (synthStep env)
          (([] : List SensitiveFinding), reset st)
        (out.1, some out.2)
  else (findings, synth)

/-- `RedactionResult` (src/redaction/models/entities.py). -/
structure RedactionResult where
  input_path : String
  output_path : String
  findings : List SensitiveFinding
  total_pages : Nat
  redacted_count : Nat
  processing_time_seconds : ℚ
  categories_requested : List String
  ocr_pages : Nat

/-- The `summary.total_findings` entry of `RedactionResult.to_dict`:
`len(self.findings)`. -/
def RedactionResult.summary_total_findings (r : RedactionResult) : Nat :=
  r.findings.length

/-- One run of `RedactionPipeline.process`: the `RedactionResult` plus the
raw finding count logged by `"Found %d PHI items"` before filtering. -/
structure PipelineRun where
  logged_raw_count : Nat
  result : RedactionResult

/-- `RedactionPipeline.process`: extract (modelled by the given `pages`),
detect, log the raw count, filter by confidence, apply the mode policy,
redact, and assemble the result.  The redactor's in-place updates to the
finding objects are `updateFinding`; `processing_time_seconds` is the
redaction stage's wall clock, an external quantity passed in. -/
def process (doc : PDFDoc) (pages : List PageContent)
    (call : PageContent → CallOutcome) (valid_categories : List String)
    (env : SynthEnv) (synth : Option SynthState) (mode : String)
    (confidence_threshold : Option ℚ)
    (input_path output_path : String) (redact_wall_clock : ℚ) :
    PipelineRun :=
  let ocr_pages := (pages.filter (fun p => p.is_ocr)).length
  let findings₀ := detect pages call valid_categories
  let logged_raw_count := findings₀.length
  let findings₁ := apply_confidence_filter findings₀ confidence_threshold
  let findings₂ := (apply_mode env (init_mode mode) synth findings₁).1
  let redacted_count := apply_redactions doc findings₂
  { logged_raw_count := logged_raw_count
    result :=
      { input_path := input_path
        output_path := output_path
        findings := findings₂.map (updateFinding doc)
        total_pages := pages.length
        redacted_count := redacted_count
        processing_time_seconds := redact_wall_clock
        categories_requested := valid_categories
        ocr_pages := ocr_pages } }

/-! ## Benchmark scorer (evaluation/run_benchmark.py) -/

/-- `_normalize`: `" ".join(text.lower().split())`. -/
def normalize (text : String) : String :=
  wsNormalize (pyLower text)

/-- A ground-truth record (`{"text": ..., "category": ...}`). -/
structure GroundTruthItem where
  text : String
  category : String
  deriving Repr, DecidableEq

/-- The set of `(normalized text, category)` keys of the ground truth. -/
def gtKeys (ground_truth : List GroundTruthItem) : Finset (String × String) :=
  (ground_truth.map (fun item => (normalize item.text, item.category))).toFinset

/-- The set of `(normalized text, category)` keys of the detected findings. -/
def detKeys (detected : List SensitiveFinding) : Finset (String × String) :=
  (detected.map (fun item => (normalize item.text, item.category))).toFinset

/-- `_match_findings`: `(tp, fp, fn)` as set intersection and differences. -/
def match_findings (ground_truth : List GroundTruthItem)
    (detected : List SensitiveFinding) :
    Finset (String × String) × Finset (String × String) ×
      Finset (String × String) :=
  let gt_set := gtKeys ground_truth
  let det_set := detKeys detected
  (gt_set ∩ det_set, det_set \ gt_set, gt_set \ det_set)

/-- `_compute_metrics`: precision, recall, F1 with explicit zero-denominator
guards (Python's `x if denom else 0.0`). -/
def compute_metrics (tp_count fp_count fn_count : Nat) : ℚ × ℚ × ℚ :=
  let precisionV : ℚ :=
    if tp_count + fp_count = 0 then 0
    else (tp_count : ℚ) / ((tp_count : ℚ) + (fp_count : ℚ))
  let recallV : ℚ :=
    if tp_count + fn_count = 0 then 0
    else (tp_count : ℚ) / ((tp_count : ℚ) + (fn_count : ℚ))
  let f1V : ℚ :=
    if precisionV + recallV = 0 then 0
    else 2 * precisionV * recallV / (precisionV + recallV)
  (precisionV, recallV, f1V)

/-! ## JSON serialization (src/redaction/models/entities.py) -/

/-- `BoundingBox.to_dict`: `[x, y, width, height]` rounded to 2 decimals. -/
def BoundingBox.to_dict (b : BoundingBox) : List ℚ :=
  [round2 b.x0, round2 b.y0, round2 (b.x1 - b.x0), round2 (b.y1 - b.y0)]

/-- Python `int(q)`: truncation toward zero. -/
def pyInt (q : ℚ) : ℤ :=
  if 0 ≤ q then ⌊q⌋ else ⌈q⌉

/-- The dictionary produced by `SensitiveFinding.to_dict`. -/
structure FindingDict where
  section_id : String
  section_text : String
  category : String
  subcategory : String
  page_number : Nat
  conf_score : ℤ
  rationale : String
  replacement : String
  bbox : List ℚ
  deriving Repr, DecidableEq

/-- `SensitiveFinding.to_dict`: `bbox` is the first bounding box's
`to_dict`, or `[]` when there is none. -/
def SensitiveFinding.to_dict (f : SensitiveFinding) : FindingDict :=
  { section_id := f.finding_id
    section_text := f.text
    category := f.category
    subcategory := f.subcategory
    page_number := f.page_number + 1
    conf_score := pyInt (f.confidence * 100)
    rationale := f.rationale
    replacement := f.replacement
    bbox :=
      match f.bounding_boxes with
      | [] => []
      | b :: _ => b.to_dict }

/-! ## Concrete demo inputs

Concrete pages, items, documents and runs used to instantiate the
theorems below on executable inputs. -/

/-- Demo scenario: one page, one well-formed item, used to witness the
detector theorems on a concrete input. -/
def demoPage : PageContent := { page_number := 0, text := "John Smith here" }

def demoItem : LLMItem :=
  { text := some "John Smith", category := some "patient_name",
    confidence := some (.num (mkRat 19 20)) }

def demoCall : PageContent → CallOutcome :=
  fun _ => .response (.json (some [demoItem]))

def demoFinding : SensitiveFinding :=
  { text := "John Smith", category := "patient_name",
    subcategory := "unknown", page_number := 0, confidence := mkRat 19 20,
    rationale := "", replacement := "[PATIENT_NAME]" }

/-- Helper projecting the confidences out of a parse result. -/
def parsedConfidences (r : Except ParseError (List SensitiveFinding)) :
    Option (List ℚ) :=
  match r with
  | .error _ => none
  | .ok fs => some (fs.map SensitiveFinding.confidence)

/-- An LLM item over `demoPage` with a given raw confidence value. -/
def demoItemConf (c : Option ConfVal) : LLMItem :=
  { text := some "John Smith", category := some "patient_name",
    confidence := c }

def demoFailCall : PageContent → CallOutcome := fun _ => .failure

/-- A finding whose only relevant datum is its confidence. -/
def confOnly (q : ℚ) : SensitiveFinding :=
  { text := "t", category := "c", subcategory := "s", page_number := 0,
    confidence := q, rationale := "" }

def demoEnv : SynthEnv := { today := 0, fmtDate := fun _ => "01/01/2024" }

/-- A sequence of further `generate` calls within the same document run,
given as (category, subcategory, original text) triples. -/
def runGenerate (env : SynthEnv) (st : SynthState) :
    List (String × String × String) → SynthState
  | [] => st
  | (c, s, o) :: rest => runGenerate env (generate env st c s o).2 rest

def demoDetected : SensitiveFinding :=
  { text := "john smith", category := "patient_name", subcategory := "s",
    page_number := 0, confidence := 1, rationale := "" }

/-- The annotations one finding yields: its matched occurrences, or zero
when its page lies beyond the document. -/
def annotWeight (doc : PDFDoc) (f : SensitiveFinding) : Nat :=
  if doc.numPages ≤ f.page_number then 0
  else (searchInstances doc f.page_number f.text).length

/-- The annotation count of a page-grouped finding list. -/
def groupAnnotCount (doc : PDFDoc)
    (gs : List (Nat × List SensitiveFinding)) : Nat :=
  (gs.map (fun pg =>
    if doc.numPages ≤ pg.1 then 0
    else (pg.2.map
      (fun f => (searchInstances doc pg.1 f.text).length)).sum)).sum

/-- A document with one page on which `"John Smith"` matches twice. -/
def demoDoc : PDFDoc :=
  { numPages := 1,
    search := fun pg text =>
      if pg = 0 ∧ text = "John Smith" then
        [⟨10, 10, 60, 15⟩, ⟨10, 30, 60, 35⟩]
      else [] }

/-- Detector outcome for the C3 scenario: one page yielding two findings,
with confidences 0.5 and 0.9. -/
def c3Call : PageContent → CallOutcome :=
  fun _ => .response (.json (some [
    { text := some "John", category := some "patient_name",
      confidence := some (.num (mkRat 1 2)) },
    { text := some "Smith", category := some "patient_name",
      confidence := some (.num (mkRat 9 10)) }]))

def c3Doc : PDFDoc := { numPages := 1, search := fun _ _ => [] }

/-- The C3 scenario run: threshold 0.7 drops one of the two findings. -/
def c3Run : PipelineRun :=
  process c3Doc [demoPage] c3Call ["patient_name"] demoEnv none
    "placeholder" (some (mkRat 7 10)) "in.pdf" "out.pdf" 0

/-! # Detector invariants -/

theorem buildFinding_ok_inv (page : PageContent) (item : LLMItem)
    (item_category : String) (q : ℚ) (f : SensitiveFinding)
    (h : buildFinding page item item_category q = .ok (some f)) :
    f.category = item_category ∧ item.text = some f.text ∧
      f.page_number = page.page_number ∧
      f.confidence = max 0 (min 1 q) := by
  cases ht : item.text with
  | none => simp [buildFinding, ht] at h
  | some t =>
      simp only [buildFinding, ht, Except.ok.injEq, Option.some.injEq] at h
      subst h
      exact ⟨rfl, rfl, rfl, rfl⟩

theorem parseItem_ok_inv (page : PageContent) (valid_categories : List String)
    (item : LLMItem) (f : SensitiveFinding)
    (h : parseItem page valid_categories item = .ok (some f)) :
    f.category ∈ valid_categories ∧ strContains page.text f.text = true ∧
      f.page_number = page.page_number ∧
      0 ≤ f.confidence ∧ f.confidence ≤ 1 := by
  unfold parseItem at h
  by_cases h₁ : item.category.getD "" ∈ valid_categories
  · rw [if_neg (not_not_intro h₁)] at h
    cases h₂ : strContains page.text (item.text.getD "") with
    | false => rw [h₂] at h; simp at h
    | true =>
        rw [h₂] at h
        simp only [Bool.not_true, Bool.false_eq_true, if_false] at h
        have bound : ∀ q : ℚ, 0 ≤ max 0 (min 1 q) ∧ max 0 (min 1 q) ≤ 1 :=
          fun q => ⟨le_max_left 0 _, max_le zero_le_one (min_le_left 1 q)⟩
        have finish : ∀ q : ℚ,
            buildFinding page item (item.category.getD "") q = .ok (some f) →
            f.category ∈ valid_categories ∧
              strContains page.text f.text = true ∧
              f.page_number = page.page_number ∧
              0 ≤ f.confidence ∧ f.confidence ≤ 1 := by
          intro q hb
          obtain ⟨hcat, htext, hpage, hconf⟩ :=
            buildFinding_ok_inv page item _ q f hb
          refine ⟨hcat ▸ h₁, ?_, hpage, ?_, ?_⟩
          · rwa [htext, Option.getD_some] at h₂
          · rw [hconf]; exact (bound q).1
          · rw [hconf]; exact (bound q).2
        cases hc : item.confidence with
        | none => rw [hc] at h; exact finish _ h
        | some cv =>
            cases cv with
            | num q => rw [hc] at h; exact finish _ h
            | notANumber s => rw [hc] at h; cases h
  · rw [if_pos h₁] at h
    cases h

theorem parseItems_mem (page : PageContent) (valid_categories : List String)
    (items : List LLMItem) (fs : List SensitiveFinding) (f : SensitiveFinding)
    (h : parseItems page valid_categories items = .ok fs) (hf : f ∈ fs) :
    ∃ item, parseItem page valid_categories item = .ok (some f) := by
  induction items generalizing fs with
  | nil =>
      simp only [parseItems, Except.ok.injEq] at h
      subst h; cases hf
  | cons item rest ih =>
      unfold parseItems at h
      cases hpi : parseItem page valid_categories item with
      | error e => rw [hpi] at h; cases h
      | ok f? =>
          rw [hpi] at h
          cases hrest : parseItems page valid_categories rest with
          | error e => rw [hrest] at h; cases h
          | ok fs' =>
              rw [hrest] at h
              cases f? with
              | none =>
                  simp only [Except.ok.injEq] at h
                  subst h
                  exact ih fs' hrest hf
              | some g =>
                  simp only [Except.ok.injEq] at h
                  subst h
                  cases hf with
                  | head => exact ⟨item, hpi⟩
                  | tail _ hf => exact ih fs' hrest hf

theorem detect_page_inv (call : CallOutcome) (page : PageContent)
    (valid_categories : List String) (f : SensitiveFinding)
    (hf : f ∈ detect_page call page valid_categories) :
    f.category ∈ valid_categories ∧ strContains page.text f.text = true ∧
      f.page_number = page.page_number ∧
      0 ≤ f.confidence ∧ f.confidence ≤ 1 := by
  cases call with
  | failure => cases hf
  | response r =>
      have hf' : f ∈ (match parse_response r page valid_categories with
        | Except.error _ => ([] : List SensitiveFinding)
        | Except.ok fs => fs) := hf
      cases hp : parse_response r page valid_categories with
      | error e => rw [hp] at hf'; cases hf'
      | ok fs =>
          rw [hp] at hf'
          cases r with
          | emptyChoices => cases hp
          | malformedJson => cases hp
          | json ff =>
              have hp' : parseItems page valid_categories (ff.getD []) =
                  .ok fs := hp
              obtain ⟨item, hitem⟩ := parseItems_mem page valid_categories
                (ff.getD []) fs f hp' hf'
              exact parseItem_ok_inv page valid_categories item f hitem

theorem detect_inv (pages : List PageContent)
    (call : PageContent → CallOutcome) (valid_categories : List String)
    (f : SensitiveFinding) (hf : f ∈ detect pages call valid_categories) :
    ∃ page ∈ pages, page.page_number = f.page_number ∧
      f.category ∈ valid_categories ∧ strContains page.text f.text = true ∧
      0 ≤ f.confidence ∧ f.confidence ≤ 1 := by
  induction pages with
  | nil => cases hf
  | cons page rest ih =>
      unfold detect at hf
      rcases List.mem_append.mp hf with hl | hr
      · by_cases hb : isBlank page.text
        · rw [if_pos (by simpa using hb)] at hl; cases hl
        · rw [if_neg (by simpa using hb)] at hl
          obtain ⟨hcat, htext, hpage, hlo, hhi⟩ :=
            detect_page_inv (call page) page valid_categories f hl
          exact ⟨page, List.mem_cons_self .., hpage.symm, hcat, htext, hlo, hhi⟩
      · obtain ⟨p, hp, rest'⟩ := ih hr
        exact ⟨p, List.mem_cons_of_mem _ hp, rest'⟩

theorem detect_async_inv (pages : List PageContent)
    (call : PageContent → CallOutcome) (valid_categories : List String)
    (f : SensitiveFinding)
    (hf : f ∈ detect_async pages call valid_categories) :
    ∃ page ∈ pages, page.page_number = f.page_number ∧
      f.category ∈ valid_categories ∧ strContains page.text f.text = true ∧
      0 ≤ f.confidence ∧ f.confidence ≤ 1 := by
  unfold detect_async at hf
  obtain ⟨l, hl, hfl⟩ := List.mem_flatten.mp hf
  obtain ⟨p, hp, rfl⟩ := List.mem_map.mp hl
  obtain ⟨hcat, htext, hpage, hlo, hhi⟩ :=
    detect_page_inv (call p) p valid_categories f hfl
  exact ⟨p, (List.mem_filter.mp hp).1, hpage.symm, hcat, htext, hlo, hhi⟩

theorem parseItem_drop (page : PageContent) (valid_categories : List String)
    (item : LLMItem)
    (h : item.category.getD "" ∉ valid_categories ∨
      strContains page.text (item.text.getD "") = false) :
    parseItem page valid_categories item = .ok none := by
  unfold parseItem
  rcases h with h | h
  · rw [if_pos h]
  · by_cases h₁ : item.category.getD "" ∈ valid_categories
    · rw [if_neg (not_not_intro h₁), h]
      simp
    · rw [if_pos h₁]

theorem parseItems_cons (page : PageContent) (valid_categories : List String)
    (item : LLMItem) (rest : List LLMItem) :
    parseItems page valid_categories (item :: rest) =
      match parseItem page valid_categories item with
      | .error e => .error e
      | .ok f? =>
          match parseItems page valid_categories rest with
          | .error e => .error e
          | .ok fs =>
              .ok (match f? with
                   | none => fs
                   | some f => f :: fs) := rfl

theorem parseItems_drop (page : PageContent) (valid_categories : List String)
    (pre post : List LLMItem) (item : LLMItem)
    (h : parseItem page valid_categories item = .ok none) :
    parseItems page valid_categories (pre ++ item :: post) =
      parseItems page valid_categories (pre ++ post) := by
  induction pre with
  | nil =>
      simp only [List.nil_append]
      rw [parseItems_cons, h]
      cases hrest : parseItems page valid_categories post <;> rfl
  | cons x xs ih =>
      simp only [List.cons_append]
      rw [parseItems_cons, parseItems_cons page valid_categories x (xs ++ post),
        ih]

/-- **C1**: every `SensitiveFinding` produced by `EntityDetector`
(`detect` or `detect_async`) has a category in the supplied taxonomy's
valid-category set and a text occurring verbatim as a substring of its
source page's text at detection time; a returned item failing either check
is silently dropped — it yields no finding and no error (the parse of the
remaining items is unchanged). -/
theorem C1_detector_validation (pages : List PageContent)
    (call : PageContent → CallOutcome) (valid_categories : List String)
    (f : SensitiveFinding)
    (hf : f ∈ detect pages call valid_categories ∨
      f ∈ detect_async pages call valid_categories) :
    (f.category ∈ valid_categories ∧
      ∃ page ∈ pages, page.page_number = f.page_number ∧
        strContains page.text f.text = true) ∧
    ∀ (page : PageContent) (pre post : List LLMItem) (item : LLMItem),
      (item.category.getD "" ∉ valid_categories ∨
        strContains page.text (item.text.getD "") = false) →
      parseItems page valid_categories (pre ++ item :: post) =
        parseItems page valid_categories (pre ++ post) := by
  constructor
  · rcases hf with hf | hf
    · obtain ⟨page, hp, hnum, hcat, htext, _, _⟩ :=
        detect_inv pages call valid_categories f hf
      exact ⟨hcat, page, hp, hnum, htext⟩
    · obtain ⟨page, hp, hnum, hcat, htext, _, _⟩ :=
        detect_async_inv pages call valid_categories f hf
      exact ⟨hcat, page, hp, hnum, htext⟩
  · intro page pre post item h
    exact parseItems_drop page valid_categories pre post item
      (parseItem_drop page valid_categories item h)

theorem C1_detector_validation_witness :
    (demoFinding.category ∈ ["patient_name"] ∧
      ∃ page ∈ [demoPage], page.page_number = demoFinding.page_number ∧
        strContains page.text demoFinding.text = true) ∧
    ∀ (page : PageContent) (pre post : List LLMItem) (item : LLMItem),
      (item.category.getD "" ∉ ["patient_name"] ∨
        strContains page.text (item.text.getD "") = false) →
      parseItems page ["patient_name"] (pre ++ item :: post) =
        parseItems page ["patient_name"] (pre ++ post) :=
  C1_detector_validation [demoPage] demoCall ["patient_name"] demoFinding
    (Or.inl (by decide))

/-- **C8**: every finding produced by the detector has confidence in [0,1]
after clamping; concretely a raw 1.5 becomes 1.0, a raw −0.5 becomes 0.0, a
raw 0.85 stays 0.85, and an item with no confidence field defaults to
0.8. -/
theorem C8_confidence_clamping (pages : List PageContent)
    (call : PageContent → CallOutcome) (valid_categories : List String)
    (f : SensitiveFinding)
    (hf : f ∈ detect pages call valid_categories ∨
      f ∈ detect_async pages call valid_categories) :
    (0 ≤ f.confidence ∧ f.confidence ≤ 1) ∧
    parsedConfidences (parseItems demoPage ["patient_name"]
      [demoItemConf (some (.num (mkRat 3 2)))]) = some [1] ∧
    parsedConfidences (parseItems demoPage ["patient_name"]
      [demoItemConf (some (.num (mkRat (-1) 2)))]) = some [0] ∧
    parsedConfidences (parseItems demoPage ["patient_name"]
      [demoItemConf (some (.num (mkRat 85 100)))]) = some [mkRat 85 100] ∧
    parsedConfidences (parseItems demoPage ["patient_name"]
      [demoItemConf none]) = some [mkRat 8 10] := by
  refine ⟨?_, by decide, by decide, by decide, by decide⟩
  rcases hf with hf | hf
  · obtain ⟨page, _, _, _, _, hlo, hhi⟩ :=
      detect_inv pages call valid_categories f hf
    exact ⟨hlo, hhi⟩
  · obtain ⟨page, _, _, _, _, hlo, hhi⟩ :=
      detect_async_inv pages call valid_categories f hf
    exact ⟨hlo, hhi⟩

theorem C8_confidence_clamping_witness :
    ((0 ≤ demoFinding.confidence ∧ demoFinding.confidence ≤ 1) ∧
      parsedConfidences (parseItems demoPage ["patient_name"]
        [demoItemConf (some (.num (mkRat 3 2)))]) = some [1] ∧
      parsedConfidences (parseItems demoPage ["patient_name"]
        [demoItemConf (some (.num (mkRat (-1) 2)))]) = some [0] ∧
      parsedConfidences (parseItems demoPage ["patient_name"]
        [demoItemConf (some (.num (mkRat 85 100)))]) = some [mkRat 85 100] ∧
      parsedConfidences (parseItems demoPage ["patient_name"]
        [demoItemConf none]) = some [mkRat 8 10]) :=
  C8_confidence_clamping [demoPage] demoCall ["patient_name"] demoFinding
    (Or.inl (by decide))

/-! # Parse-step errors and page isolation -/

theorem detect_cons (p : PageContent) (rest : List PageContent)
    (call : PageContent → CallOutcome) (valid_categories : List String) :
    detect (p :: rest) call valid_categories =
      (if isBlank p.text then []
       else detect_page (call p) p valid_categories) ++
        detect rest call valid_categories := rfl

theorem detect_append (l₁ l₂ : List PageContent)
    (call : PageContent → CallOutcome) (valid_categories : List String) :
    detect (l₁ ++ l₂) call valid_categories =
      detect l₁ call valid_categories ++ detect l₂ call valid_categories := by
  induction l₁ with
  | nil => rfl
  | cons p l ih =>
      rw [List.cons_append, detect_cons, detect_cons, ih, List.append_assoc]

theorem detect_async_append (l₁ l₂ : List PageContent)
    (call : PageContent → CallOutcome) (valid_categories : List String) :
    detect_async (l₁ ++ l₂) call valid_categories =
      detect_async l₁ call valid_categories ++
        detect_async l₂ call valid_categories := by
  unfold detect_async
  rw [List.filter_append, List.map_append, List.flatten_append]

/-- **C4** (amended): the raw parse step propagates malformed-JSON (and
empty-choices) errors uncaught to its direct caller, but a decoded payload
*lacking the top-level findings field* is not an error — it parses to zero
findings; the per-page wrapper converts every exception of one page's call
into zero findings for that page, and a failing page never disturbs the
findings of the remaining pages, in either execution mode. -/
theorem C4_parse_errors_page_isolation (page : PageContent)
    (valid_categories : List String) (call : PageContent → CallOutcome)
    (r : LLMResponse) (e : ParseError) (pages₁ pages₂ : List PageContent)
    (p : PageContent)
    (hp : detect_page (call p) p valid_categories = [])
    (hr : parse_response r page valid_categories = .error e) :
    parse_response .malformedJson page valid_categories =
      .error .jsonDecodeError ∧
    parse_response .emptyChoices page valid_categories =
      .error .indexError ∧
    parse_response (.json none) page valid_categories = .ok [] ∧
    detect_page (.response r) page valid_categories = [] ∧
    detect_page .failure page valid_categories = [] ∧
    detect (pages₁ ++ p :: pages₂) call valid_categories =
      detect pages₁ call valid_categories ++
        detect pages₂ call valid_categories ∧
    detect_async (pages₁ ++ p :: pages₂) call valid_categories =
      detect_async pages₁ call valid_categories ++
        detect_async pages₂ call valid_categories := by
  refine ⟨rfl, rfl, rfl, ?_, rfl, ?_, ?_⟩
  · show (match parse_response r page valid_categories with
      | Except.error _ => ([] : List SensitiveFinding)
      | Except.ok fs => fs) = []
    rw [hr]
  · rw [detect_append, detect_cons, hp, ite_self, List.nil_append]
  · rw [detect_async_append]
    congr 1
    unfold detect_async
    by_cases hb : isBlank p.text
    · simp [hb]
    · simp [hb, hp]

/-- **C4** counterexample to the claim as stated: a well-formed JSON payload
with no top-level `"findings"` key does *not* raise from the raw parsing
step — `_parse_response` returns zero findings (`data.get("findings", [])`),
as the repository's own unit test `test_missing_findings_key_returns_empty`
expects. -/
theorem C4_counterexample_missing_findings_key :
    parse_response (LLMResponse.json none) demoPage ["patient_name"] =
      Except.ok [] ∧
    parse_response (LLMResponse.json none) demoPage ["patient_name"] ≠
      Except.error ParseError.jsonDecodeError := by
  exact ⟨rfl, fun h => Except.noConfusion h⟩

theorem C4_parse_errors_page_isolation_witness :
    (parse_response .malformedJson demoPage ["patient_name"] =
      .error .jsonDecodeError ∧
    parse_response .emptyChoices demoPage ["patient_name"] =
      .error .indexError ∧
    parse_response (.json none) demoPage ["patient_name"] = .ok [] ∧
    detect_page (.response .malformedJson) demoPage ["patient_name"] = [] ∧
    detect_page .failure demoPage ["patient_name"] = [] ∧
    detect ([demoPage] ++ demoPage :: [demoPage]) demoFailCall
      ["patient_name"] =
      detect [demoPage] demoFailCall ["patient_name"] ++
        detect [demoPage] demoFailCall ["patient_name"] ∧
    detect_async ([demoPage] ++ demoPage :: [demoPage]) demoFailCall
      ["patient_name"] =
      detect_async [demoPage] demoFailCall ["patient_name"] ++
        detect_async [demoPage] demoFailCall ["patient_name"]) :=
  C4_parse_errors_page_isolation demoPage ["patient_name"] demoFailCall
    .malformedJson .jsonDecodeError [demoPage] [demoPage] demoPage
    (by decide) rfl

/-! # Confidence filter -/

/-- **C5**: a caller-supplied threshold strictly greater than 1 is divided
by 100 before use, and exactly the findings whose confidence is at least
the resolved threshold are retained; threshold 70 on confidences
[0.5, 0.7, 0.9] retains exactly 2 findings. -/
theorem C5_confidence_filter (findings : List SensitiveFinding)
    (threshold : ℚ) (f : SensitiveFinding) (hth : 1 < threshold) :
    (f ∈ apply_confidence_filter findings (some threshold) ↔
      f ∈ findings ∧ threshold / 100 ≤ f.confidence) ∧
    (apply_confidence_filter
      [confOnly (mkRat 1 2), confOnly (mkRat 7 10), confOnly (mkRat 9 10)]
      (some 70)).length = 2 := by
  constructor
  · have hfil : apply_confidence_filter findings (some threshold) =
        findings.filter (fun f => decide
          ((if 1 < threshold then threshold / 100 else threshold) ≤
            f.confidence)) := rfl
    rw [hfil]
    simp [hth, List.mem_filter]
  · have hfil : apply_confidence_filter
        [confOnly (mkRat 1 2), confOnly (mkRat 7 10), confOnly (mkRat 9 10)]
        (some 70) =
        List.filter (fun f => decide
          ((if (1 : ℚ) < 70 then (70 : ℚ) / 100 else 70) ≤ f.confidence))
          [confOnly (mkRat 1 2), confOnly (mkRat 7 10),
            confOnly (mkRat 9 10)] := rfl
    rw [hfil]
    norm_num [List.filter, confOnly, Rat.mkRat_eq_div]

theorem C5_confidence_filter_witness :
    (confOnly (mkRat 9 10) ∈ apply_confidence_filter
      [confOnly (mkRat 1 2), confOnly (mkRat 7 10), confOnly (mkRat 9 10)]
      (some 70) ↔
      confOnly (mkRat 9 10) ∈
        [confOnly (mkRat 1 2), confOnly (mkRat 7 10),
          confOnly (mkRat 9 10)] ∧
        (70 : ℚ) / 100 ≤ (confOnly (mkRat 9 10)).confidence) ∧
    (apply_confidence_filter
      [confOnly (mkRat 1 2), confOnly (mkRat 7 10), confOnly (mkRat 9 10)]
      (some 70)).length = 2 :=
  C5_confidence_filter
    [confOnly (mkRat 1 2), confOnly (mkRat 7 10), confOnly (mkRat 9 10)]
    70 (confOnly (mkRat 9 10)) (by decide)

/-! # Mode policy -/

/-- **C9**: under the orchestrator's mode policy, `mask` sets every
finding's replacement to the empty string, `placeholder` leaves every
finding unchanged, and an unrecognized mode value behaves exactly as
`placeholder` (it is normalized to `"placeholder"` at construction). -/
theorem C9_mode_policy (env : SynthEnv) (synth : Option SynthState)
    (findings : List SensitiveFinding) (mode : String)
    (hmode : mode ∉ VALID_MODES) :
    (∀ f ∈ (apply_mode env (init_mode "mask") synth findings).1,
      f.replacement = "") ∧
    (apply_mode env (init_mode "placeholder") synth findings).1 =
      findings ∧
    init_mode mode = "placeholder" ∧
    apply_mode env (init_mode mode) synth findings =
      apply_mode env (init_mode "placeholder") synth findings := by
  have hm : init_mode mode = "placeholder" := by
    unfold init_mode
    rw [if_neg hmode]
  refine ⟨?_, ?_, hm, by rw [hm]; exact rfl⟩
  · intro f hf
    have : (apply_mode env (init_mode "mask") synth findings).1 =
        findings.map (fun f => { f with replacement := "" }) := rfl
    rw [this] at hf
    obtain ⟨g, _, rfl⟩ := List.mem_map.mp hf
    rfl
  · rfl

theorem C9_mode_policy_witness :
    (∀ f ∈ (apply_mode demoEnv (init_mode "mask") none [demoFinding]).1,
      f.replacement = "") ∧
    (apply_mode demoEnv (init_mode "placeholder") none [demoFinding]).1 =
      [demoFinding] ∧
    init_mode "bogus" = "placeholder" ∧
    apply_mode demoEnv (init_mode "bogus") none [demoFinding] =
      apply_mode demoEnv (init_mode "placeholder") none [demoFinding] :=
  C9_mode_policy demoEnv none [demoFinding] "bogus" (by decide)

/-! # Synthesizer cache consistency -/

theorem generate_eq (env : SynthEnv) (st : SynthState) (c s o : String) :
    generate env st c s o =
      match st.cache.lookup (c ++ ":" ++ o) with
      | some v => (v, st)
      | none =>
          ((dispatchGenerator env c s st.rng).1,
            { rng := (dispatchGenerator env c s st.rng).2,
              cache := ((c ++ ":" ++ o), (dispatchGenerator env c s st.rng).1)
                :: st.cache }) := by
  unfold generate
  dsimp only

theorem generate_hit (env : SynthEnv) (st : SynthState) (c s o v : String)
    (hl : st.cache.lookup (c ++ ":" ++ o) = some v) :
    generate env st c s o = (v, st) := by
  rw [generate_eq, hl]

theorem generate_cache_lookup (env : SynthEnv) (st : SynthState)
    (c s o : String) :
    ((generate env st c s o).2).cache.lookup (c ++ ":" ++ o) =
      some (generate env st c s o).1 := by
  rw [generate_eq]
  cases hl : st.cache.lookup (c ++ ":" ++ o) with
  | some v => exact hl
  | none => simp [List.lookup]

theorem generate_cache_preserved (env : SynthEnv) (st : SynthState)
    (c s o k v : String) (hk : st.cache.lookup k = some v) :
    ((generate env st c s o).2).cache.lookup k = some v := by
  rw [generate_eq]
  cases hl : st.cache.lookup (c ++ ":" ++ o) with
  | some w => exact hk
  | none =>
      have hne : k ≠ c ++ ":" ++ o := by
        intro h
        rw [h, hl] at hk
        cases hk
      simp only [List.lookup, beq_eq_false_iff_ne.mpr hne]
      exact hk

theorem runGenerate_cache_preserved (env : SynthEnv) (st : SynthState)
    (reqs : List (String × String × String)) (k v : String)
    (hk : st.cache.lookup k = some v) :
    ((runGenerate env st reqs)).cache.lookup k = some v := by
  induction reqs generalizing st with
  | nil => exact hk
  | cons r rest ih =>
      obtain ⟨c, s, o⟩ := r
      exact ih _ (generate_cache_preserved env st c s o k v hk)

/-- **C7**: within one document run (no `reset` in between), two calls to
the synthesizer's `generate` with the same category and the same original
text return identical replacement strings — whatever the subcategory
arguments and whatever other `generate` calls happen in between — because
the cache is keyed by (category, originalText). -/
theorem C7_synthesizer_referential_consistency (env : SynthEnv)
    (st : SynthState) (category original_text sub₁ sub₂ : String)
    (reqs : List (String × String × String)) :
    (generate env
        (runGenerate env (generate env st category sub₁ original_text).2
          reqs)
        category sub₂ original_text).1 =
      (generate env st category sub₁ original_text).1 := by
  have h1 := generate_cache_lookup env st category sub₁ original_text
  have h2 := runGenerate_cache_preserved env
    (generate env st category sub₁ original_text).2 reqs _ _ h1
  rw [generate_hit env _ category sub₂ original_text _ h2]

/-! # Finding serialization -/

/-- **C10**: `SensitiveFinding.to_dict` exports at most one bounding
region — the first element of `bounding_boxes` (or an empty list when there
is none); every bounding box after the first is omitted from the serialized
output. -/
theorem C10_to_dict_single_bbox (f : SensitiveFinding) (b : BoundingBox)
    (rest : List BoundingBox) :
    ({ f with bounding_boxes := [] } : SensitiveFinding).to_dict.bbox =
      [] ∧
    ({ f with bounding_boxes := b :: rest } :
      SensitiveFinding).to_dict.bbox = b.to_dict ∧
    ({ f with bounding_boxes := b :: rest } : SensitiveFinding).to_dict =
      ({ f with bounding_boxes := [b] } : SensitiveFinding).to_dict :=
  ⟨rfl, rfl, rfl⟩

/-! # Benchmark scoring -/

/-- **C6**: the benchmark scorer matches on *sets* of (normalized text,
category) pairs — normalization lowercases, collapses internal whitespace
to single spaces and trims, and duplicate pairs collapse to one unit — with
true positives the intersection, false positives the detected-only keys,
false negatives the truth-only keys; precision (resp. recall) is 0 when its
denominator is 0 and F1 is 0 when precision + recall is 0, so an empty
detected set against one ground-truth item yields precision = recall = 0
with no division fault. -/
theorem C6_benchmark_scoring (ground_truth : List GroundTruthItem)
    (detected : List SensitiveFinding) (k : String × String)
    (tp₁ fp₁ fn₁ tp₂ fp₂ fn₂ tp₃ fp₃ fn₃ : Nat)
    (hp : tp₁ + fp₁ = 0) (hr : tp₂ + fn₂ = 0)
    (hf : (compute_metrics tp₃ fp₃ fn₃).1 +
      (compute_metrics tp₃ fp₃ fn₃).2.1 = 0) :
    (k ∈ (match_findings ground_truth detected).1 ↔
      k ∈ gtKeys ground_truth ∧ k ∈ detKeys detected) ∧
    (k ∈ (match_findings ground_truth detected).2.1 ↔
      k ∈ detKeys detected ∧ k ∉ gtKeys ground_truth) ∧
    (k ∈ (match_findings ground_truth detected).2.2 ↔
      k ∈ gtKeys ground_truth ∧ k ∉ detKeys detected) ∧
    match_findings (ground_truth ++ ground_truth) detected =
      match_findings ground_truth detected ∧
    match_findings ground_truth (detected ++ detected) =
      match_findings ground_truth detected ∧
    (compute_metrics tp₁ fp₁ fn₁).1 = 0 ∧
    (compute_metrics tp₂ fp₂ fn₂).2.1 = 0 ∧
    (compute_metrics tp₃ fp₃ fn₃).2.2 = 0 ∧
    normalize "  John   SMITH " = "john smith" ∧
    (match_findings [⟨"John Smith", "patient_name"⟩] []).1.card = 0 ∧
    (match_findings [⟨"John Smith", "patient_name"⟩] []).2.1.card = 0 ∧
    (match_findings [⟨"John Smith", "patient_name"⟩] []).2.2.card = 1 ∧
    compute_metrics 0 0 1 = (0, 0, 0) := by
  refine ⟨?_, ?_, ?_, ?_, ?_, ?_, ?_, ?_, by decide, by decide, by decide,
    by decide, by norm_num [compute_metrics]⟩
  · simp [match_findings, Finset.mem_inter]
  · simp [match_findings, Finset.mem_sdiff]
  · simp [match_findings, Finset.mem_sdiff]
  · simp [match_findings, gtKeys, List.map_append, List.toFinset_append]
  · simp [match_findings, detKeys, List.map_append, List.toFinset_append]
  · simp [compute_metrics, hp]
  · simp [compute_metrics, hr]
  · rw [show (compute_metrics tp₃ fp₃ fn₃).2.2 =
        (if (compute_metrics tp₃ fp₃ fn₃).1 +
            (compute_metrics tp₃ fp₃ fn₃).2.1 = 0 then (0 : ℚ)
         else 2 * (compute_metrics tp₃ fp₃ fn₃).1 *
            (compute_metrics tp₃ fp₃ fn₃).2.1 /
            ((compute_metrics tp₃ fp₃ fn₃).1 +
              (compute_metrics tp₃ fp₃ fn₃).2.1)) from rfl, if_pos hf]

theorem C6_benchmark_scoring_witness :
    ((("john smith", "patient_name") ∈
        (match_findings [⟨"John Smith", "patient_name"⟩]
          [demoDetected]).1 ↔
      ("john smith", "patient_name") ∈
          gtKeys [⟨"John Smith", "patient_name"⟩] ∧
        ("john smith", "patient_name") ∈ detKeys [demoDetected]) ∧
    (("john smith", "patient_name") ∈
        (match_findings [⟨"John Smith", "patient_name"⟩]
          [demoDetected]).2.1 ↔
      ("john smith", "patient_name") ∈ detKeys [demoDetected] ∧
        ("john smith", "patient_name") ∉
          gtKeys [⟨"John Smith", "patient_name"⟩]) ∧
    (("john smith", "patient_name") ∈
        (match_findings [⟨"John Smith", "patient_name"⟩]
          [demoDetected]).2.2 ↔
      ("john smith", "patient_name") ∈
          gtKeys [⟨"John Smith", "patient_name"⟩] ∧
        ("john smith", "patient_name") ∉ detKeys [demoDetected]) ∧
    match_findings ([⟨"John Smith", "patient_name"⟩] ++
        [⟨"John Smith", "patient_name"⟩]) [demoDetected] =
      match_findings [⟨"John Smith", "patient_name"⟩] [demoDetected] ∧
    match_findings [⟨"John Smith", "patient_name"⟩]
        ([demoDetected] ++ [demoDetected]) =
      match_findings [⟨"John Smith", "patient_name"⟩] [demoDetected] ∧
    (compute_metrics 0 0 5).1 = 0 ∧
    (compute_metrics 0 3 0).2.1 = 0 ∧
    (compute_metrics 0 0 1).2.2 = 0 ∧
    normalize "  John   SMITH " = "john smith" ∧
    (match_findings [⟨"John Smith", "patient_name"⟩] []).1.card = 0 ∧
    (match_findings [⟨"John Smith", "patient_name"⟩] []).2.1.card = 0 ∧
    (match_findings [⟨"John Smith", "patient_name"⟩] []).2.2.card = 1 ∧
    compute_metrics 0 0 1 = (0, 0, 0)) :=
  C6_benchmark_scoring [⟨"John Smith", "patient_name"⟩] [demoDetected]
    ("john smith", "patient_name") 0 0 5 0 3 0 0 0 1
    (by decide) (by decide) (by norm_num [compute_metrics])

/-! # Redaction application: one annotation per matched occurrence -/

theorem foldl_add_count {α : Type} (g : α → Nat) (l : List α) (acc : Nat) :
    l.foldl (fun c x => c + g x) acc = acc + (l.map g).sum := by
  induction l generalizing acc with
  | nil => simp
  | cons x xs ih => simp [ih, Nat.add_assoc]

theorem apply_redactions_eq_groupCount (doc : PDFDoc)
    (findings : List SensitiveFinding) :
    apply_redactions doc findings =
      groupAnnotCount doc (findings_by_page findings) := by
  unfold apply_redactions
  generalize findings_by_page findings = gs
  suffices h : ∀ (gs : List (Nat × List SensitiveFinding)) (acc : Nat),
      gs.foldl (fun cnt pg =>
        if doc.numPages ≤ pg.1 then cnt
        else pg.2.foldl
          (fun c f => c + (searchInstances doc pg.1 f.text).length) cnt)
        acc = acc + groupAnnotCount doc gs by
    simpa using h gs 0
  intro gs
  induction gs with
  | nil => intro acc; simp [groupAnnotCount]
  | cons pg rest ih =>
      intro acc
      simp only [List.foldl_cons]
      by_cases hpg : doc.numPages ≤ pg.1
      · rw [if_pos hpg, ih]
        simp [groupAnnotCount, hpg]
      · rw [if_neg hpg, ih, foldl_add_count]
        simp [groupAnnotCount, hpg, Nat.add_assoc]

theorem insertGroup_count (doc : PDFDoc)
    (gs : List (Nat × List SensitiveFinding)) (f : SensitiveFinding) :
    groupAnnotCount doc (insertGroup gs f) =
      groupAnnotCount doc gs + annotWeight doc f := by
  induction gs with
  | nil =>
      simp only [insertGroup, groupAnnotCount, annotWeight, List.map_cons,
        List.map_nil, List.sum_cons, List.sum_nil]
      by_cases hnp : doc.numPages ≤ f.page_number
      · simp [hnp]
      · simp [hnp]
  | cons pg rest ih =>
      obtain ⟨k, fs⟩ := pg
      by_cases hk : k = f.page_number
      · rw [show insertGroup ((k, fs) :: rest) f = (k, fs ++ [f]) :: rest by
          simp [insertGroup, hk]]
        simp only [groupAnnotCount, List.map_cons, List.sum_cons,
          List.map_append, List.sum_append, List.map_nil, List.sum_nil,
          annotWeight, hk]
        by_cases hnp : doc.numPages ≤ f.page_number
        · simp [hnp]
        · simp [hnp]
          omega
      · rw [show insertGroup ((k, fs) :: rest) f =
            (k, fs) :: insertGroup rest f by simp [insertGroup, hk]]
        simp only [groupAnnotCount, List.map_cons, List.sum_cons]
        have ih' := ih
        simp only [groupAnnotCount] at ih'
        rw [ih']
        simp only [annotWeight]
        omega

theorem findings_by_page_count (doc : PDFDoc)
    (findings : List SensitiveFinding) :
    groupAnnotCount doc (findings_by_page findings) =
      (findings.map (annotWeight doc)).sum := by
  unfold findings_by_page
  suffices h : ∀ (l : List SensitiveFinding)
      (gs : List (Nat × List SensitiveFinding)),
      groupAnnotCount doc (l.foldl insertGroup gs) =
        groupAnnotCount doc gs + (l.map (annotWeight doc)).sum by
    simpa [groupAnnotCount] using h findings []
  intro l
  induction l with
  | nil => intro gs; simp
  | cons f rest ih =>
      intro gs
      simp only [List.foldl_cons, List.map_cons, List.sum_cons]
      rw [ih, insertGroup_count]
      omega

theorem apply_redactions_count (doc : PDFDoc)
    (findings : List SensitiveFinding) :
    apply_redactions doc findings =
      (findings.map (annotWeight doc)).sum := by
  rw [apply_redactions_eq_groupCount, findings_by_page_count]

theorem updateFinding_bboxes (doc : PDFDoc) (f : SensitiveFinding)
    (h : f.page_number < doc.numPages) :
    (updateFinding doc f).bounding_boxes =
      (searchInstances doc f.page_number f.text).map BoundingBox.from_rect
    := by
  unfold updateFinding
  rw [if_neg (not_le.mpr h)]

/-- **C2**: `apply_redactions` creates exactly one bounding box and one
redaction annotation per matched occurrence of a finding's text on the
finding's page — the exact text searched first, then the
whitespace-normalized text — so the returned annotation count is the sum of
matched-occurrence counts over all findings; a finding matching twice
yields exactly 2 boxes and 2 annotations, and a finding with zero matches
is skipped with an empty bounding-box list and zero annotations, without
error. -/
theorem C2_one_annotation_per_occurrence (doc : PDFDoc)
    (findings : List SensitiveFinding) (f : SensitiveFinding)
    (hf : f.page_number < doc.numPages) :
    apply_redactions doc findings =
      (findings.map (fun g =>
        if doc.numPages ≤ g.page_number then 0
        else (searchInstances doc g.page_number g.text).length)).sum ∧
    (doc.search f.page_number f.text = [] →
      searchInstances doc f.page_number f.text =
        doc.search f.page_number (wsNormalize f.text)) ∧
    (doc.search f.page_number f.text ≠ [] →
      searchInstances doc f.page_number f.text =
        doc.search f.page_number f.text) ∧
    (updateFinding doc f).bounding_boxes.length =
      (searchInstances doc f.page_number f.text).length ∧
    (searchInstances doc f.page_number f.text = [] →
      (updateFinding doc f).bounding_boxes = [] ∧
      apply_redactions doc [f] = 0) ∧
    (∀ r₁ r₂ : Rect, searchInstances doc f.page_number f.text = [r₁, r₂] →
      (updateFinding doc f).bounding_boxes.length = 2 ∧
      apply_redactions doc [f] = 2) := by
  have hw : annotWeight doc f =
      (searchInstances doc f.page_number f.text).length := by
    unfold annotWeight
    rw [if_neg (not_le.mpr hf)]
  refine ⟨apply_redactions_count doc findings, ?_, ?_, ?_, ?_, ?_⟩
  · intro h
    unfold searchInstances
    rw [h]
    rfl
  · intro h
    unfold searchInstances
    rw [if_neg (by simpa [List.isEmpty_iff] using h)]
  · rw [updateFinding_bboxes doc f hf, List.length_map]
  · intro h
    constructor
    · rw [updateFinding_bboxes doc f hf, h]
      rfl
    · rw [apply_redactions_count, List.map_cons, List.map_nil,
        List.sum_cons, List.sum_nil, hw, h]
      rfl
  · intro r₁ r₂ h
    constructor
    · rw [updateFinding_bboxes doc f hf, h]
      rfl
    · rw [apply_redactions_count, List.map_cons, List.map_nil,
        List.sum_cons, List.sum_nil, hw, h]
      rfl

theorem C2_one_annotation_per_occurrence_witness :
    (apply_redactions demoDoc [demoFinding] =
      ([demoFinding].map (fun g =>
        if demoDoc.numPages ≤ g.page_number then 0
        else (searchInstances demoDoc g.page_number g.text).length)).sum ∧
    (demoDoc.search demoFinding.page_number demoFinding.text = [] →
      searchInstances demoDoc demoFinding.page_number demoFinding.text =
        demoDoc.search demoFinding.page_number
          (wsNormalize demoFinding.text)) ∧
    (demoDoc.search demoFinding.page_number demoFinding.text ≠ [] →
      searchInstances demoDoc demoFinding.page_number demoFinding.text =
        demoDoc.search demoFinding.page_number demoFinding.text) ∧
    (updateFinding demoDoc demoFinding).bounding_boxes.length =
      (searchInstances demoDoc demoFinding.page_number
        demoFinding.text).length ∧
    (searchInstances demoDoc demoFinding.page_number demoFinding.text =
        [] →
      (updateFinding demoDoc demoFinding).bounding_boxes = [] ∧
      apply_redactions demoDoc [demoFinding] = 0) ∧
    (∀ r₁ r₂ : Rect,
      searchInstances demoDoc demoFinding.page_number demoFinding.text =
        [r₁, r₂] →
      (updateFinding demoDoc demoFinding).bounding_boxes.length = 2 ∧
      apply_redactions demoDoc [demoFinding] = 2)) :=
  C2_one_annotation_per_occurrence demoDoc [demoFinding] demoFinding
    (by decide)

/-! # Pipeline: the confidence filter stage -/

theorem updateFinding_confidence (doc : PDFDoc) (f : SensitiveFinding) :
    (updateFinding doc f).confidence = f.confidence := by
  unfold updateFinding
  split <;> rfl

theorem synthStep_fst (env : SynthEnv)
    (acc : List SensitiveFinding × SynthState) (f : SensitiveFinding) :
    (synthStep env acc f).1 =
      acc.1 ++ [{ f with replacement :=
        (generate env acc.2 f.category f.subcategory f.text).1 }] := rfl

theorem synth_foldl_mem (env : SynthEnv) (l : List SensitiveFinding)
    (acc : List SensitiveFinding × SynthState) (f : SensitiveFinding)
    (hf : f ∈ (l.foldl (synthStep env) acc).1) :
    f ∈ acc.1 ∨ ∃ g ∈ l, f.confidence = g.confidence := by
  induction l generalizing acc with
  | nil => exact Or.inl hf
  | cons g rest ih =>
      simp only [List.foldl_cons] at hf
      rcases ih _ hf with hacc | ⟨g', hg', he⟩
      · rw [synthStep_fst] at hacc
        rcases List.mem_append.mp hacc with h | h
        · exact Or.inl h
        · obtain rfl := List.mem_singleton.mp h
          exact Or.inr ⟨g, List.mem_cons_self .., rfl⟩
      · exact Or.inr ⟨g', List.mem_cons_of_mem _ hg', he⟩

theorem synth_foldl_length (env : SynthEnv) (l : List SensitiveFinding)
    (acc : List SensitiveFinding × SynthState) :
    ((l.foldl (synthStep env) acc).1).length = acc.1.length + l.length := by
  induction l generalizing acc with
  | nil => simp
  | cons g rest ih =>
      simp only [List.foldl_cons, List.length_cons]
      rw [ih, synthStep_fst]
      simp
      omega

theorem apply_mode_mem_confidence (env : SynthEnv) (mode : String)
    (synth : Option SynthState) (findings : List SensitiveFinding)
    (f : SensitiveFinding)
    (hf : f ∈ (apply_mode env mode synth findings).1) :
    ∃ g ∈ findings, f.confidence = g.confidence := by
  unfold apply_mode at hf
  by_cases h1 : mode = "mask"
  · rw [if_pos h1] at hf
    obtain ⟨g, hg, rfl⟩ := List.mem_map.mp hf
    exact ⟨g, hg, rfl⟩
  · rw [if_neg h1] at hf
    by_cases h2 : mode = "synthetic"
    · rw [if_pos h2] at hf
      cases synth with
      | none => exact ⟨f, hf, rfl⟩
      | some st =>
          rcases synth_foldl_mem env findings
            (([] : List SensitiveFinding), reset st) f hf with h | h
          · cases h
          · exact h
    · rw [if_neg h2] at hf
      exact ⟨f, hf, rfl⟩

theorem apply_mode_length (env : SynthEnv) (mode : String)
    (synth : Option SynthState) (findings : List SensitiveFinding) :
    ((apply_mode env mode synth findings).1).length = findings.length := by
  unfold apply_mode
  by_cases h1 : mode = "mask"
  · rw [if_pos h1]
    exact List.length_map _ _
  · rw [if_neg h1]
    by_cases h2 : mode = "synthetic"
    · rw [if_pos h2]
      cases synth with
      | none => rfl
      | some st =>
          show ((findings.foldl (synthStep env)
            (([] : List SensitiveFinding), reset st)).1).length = _
          rw [synth_foldl_length]
          simp
    · rw [if_neg h2]

/-- **C3** (amended): the confidence filter drops findings below the
resolved threshold before the mode policy and redaction — every finding
reaching the assembled result satisfies the threshold — and the raw
(pre-filter) finding count is recorded (logged) before filtering, equal to
the detector's output length whatever the threshold; the assembled
`RedactionResult` itself carries the *filtered* findings, so its finding
count reflects the post-filter set. -/
theorem C3_confidence_filter_stage (doc : PDFDoc)
    (pages : List PageContent) (call : PageContent → CallOutcome)
    (valid_categories : List String) (env : SynthEnv)
    (synth : Option SynthState) (mode : String) (q : ℚ)
    (input_path output_path : String) (t : ℚ) :
    (process doc pages call valid_categories env synth mode (some q)
        input_path output_path t).logged_raw_count =
      (detect pages call valid_categories).length ∧
    (process doc pages call valid_categories env synth mode none
        input_path output_path t).logged_raw_count =
      (detect pages call valid_categories).length ∧
    (process doc pages call valid_categories env synth mode (some q)
        input_path output_path t).result.findings.length =
      (apply_confidence_filter (detect pages call valid_categories)
        (some q)).length ∧
    ∀ f ∈ (process doc pages call valid_categories env synth mode (some q)
        input_path output_path t).result.findings,
      (if 1 < q then q / 100 else q) ≤ f.confidence := by
  refine ⟨rfl, rfl, ?_, ?_⟩
  · show ((apply_mode env (init_mode mode) synth
        (apply_confidence_filter (detect pages call valid_categories)
          (some q))).1.map (updateFinding doc)).length = _
    rw [List.length_map, apply_mode_length]
  · intro f hf
    have hf' : f ∈ ((apply_mode env (init_mode mode) synth
        (apply_confidence_filter (detect pages call valid_categories)
          (some q))).1.map (updateFinding doc)) := hf
    obtain ⟨g, hg, rfl⟩ := List.mem_map.mp hf'
    rw [updateFinding_confidence]
    obtain ⟨h, hh, he⟩ := apply_mode_mem_confidence env _ synth _ g hg
    rw [he]
    have hfil : apply_confidence_filter (detect pages call valid_categories)
        (some q) = (detect pages call valid_categories).filter
          (fun f => decide
            ((if 1 < q then q / 100 else q) ≤ f.confidence)) := rfl
    rw [hfil] at hh
    simpa using (List.mem_filter.mp hh).2

/-- **C3** counterexample to the claim as stated: the assembled
`RedactionResult` does *not* carry the raw pre-filter finding count — its
`summary.total_findings` is the length of the filtered list (1), while the
raw count logged before filtering is 2; the filter does alter the count
recorded in the result. -/
theorem C3_counterexample_result_count :
    c3Run.logged_raw_count = 2 ∧
    c3Run.result.summary_total_findings = 1 ∧
    c3Run.result.summary_total_findings ≠ c3Run.logged_raw_count := by
  exact ⟨by decide, by decide, by decide⟩

theorem C3_confidence_filter_stage_witness :
    ((process c3Doc [demoPage] c3Call ["patient_name"] demoEnv none
        "placeholder" (some (mkRat 7 10)) "in.pdf" "out.pdf"
        0).logged_raw_count =
      (detect [demoPage] c3Call ["patient_name"]).length ∧
    (process c3Doc [demoPage] c3Call ["patient_name"] demoEnv none
        "placeholder" none "in.pdf" "out.pdf" 0).logged_raw_count =
      (detect [demoPage] c3Call ["patient_name"]).length ∧
    (process c3Doc [demoPage] c3Call ["patient_name"] demoEnv none
        "placeholder" (some (mkRat 7 10)) "in.pdf" "out.pdf"
        0).result.findings.length =
      (apply_confidence_filter (detect [demoPage] c3Call ["patient_name"])
        (some (mkRat 7 10))).length ∧
    ∀ f ∈ (process c3Doc [demoPage] c3Call ["patient_name"] demoEnv none
        "placeholder" (some (mkRat 7 10)) "in.pdf" "out.pdf"
        0).result.findings,
      (if 1 < mkRat 7 10 then mkRat 7 10 / 100 else mkRat 7 10) ≤
        f.confidence) :=
  C3_confidence_filter_stage c3Doc [demoPage] c3Call ["patient_name"]
    demoEnv none "placeholder" (mkRat 7 10) "in.pdf" "out.pdf" 0

end PHIRedaction
